import Mathlib

/-!
Shallow embedding of the codix-backend authorization and token-lifecycle
core: principals (Client, Admin), JWT access/refresh tokens, the auth
middlewares, the refresh-rotation controllers, password validation, the
permission evaluator, blog ownership checks, and the transactional
controllers, together with theorems settling the specification claims.

The database is modelled as an in-memory list of records; a MongoDB
transaction session is modelled by working on a copy of the list that is
installed on commit and discarded on abort.  JWTs are modelled as records
carrying the subject id, the signing-secret kind, the issuance time and
the expiry; signature verification becomes a check of the secret kind and
of the expiry against the current time.
-/

namespace Codix

/-- The ApiError shape thrown by controllers: HTTP status plus message. -/
structure ApiErr where
  status : Nat
  msg : String
deriving DecidableEq

/-- The two JWT signing secrets (ACCESS_TOKEN_SECRET, REFRESH_TOKEN_SECRET). -/
inductive SecretKind where
  | access
  | refresh
deriving DecidableEq

/-- A signed JWT: subject principal id, which secret signed it, issuance
time and expiry time.  Two tokens are equal exactly when all fields agree,
mirroring string equality of encoded JWTs. -/
structure Token where
  sub : Nat
  kind : SecretKind
  iat : Nat
  exp : Nat
deriving DecidableEq

/-- Access-token lifetime (15 minutes, in minutes). -/
def accessTtl : Nat := 15

/-- Refresh-token lifetime (7 days, in minutes). -/
def refreshTtl : Nat := 7 * 24 * 60

/-- admin.generateAccessToken / client.generateAccessToken. -/
def mkAccessToken (sub now : Nat) : Token :=
  { sub := sub, kind := .access, iat := now, exp := now + accessTtl }

/-- admin.generateRefreshToken / client.generateRefreshToken. -/
def mkRefreshToken (sub now : Nat) : Token :=
  { sub := sub, kind := .refresh, iat := now, exp := now + refreshTtl }

/-- jwt.verify(token, secret): fails when the token was signed with a
different secret or is expired, otherwise yields the decoded subject. -/
def jwtVerify (t : Token) (k : SecretKind) (now : Nat) : Except String Nat :=
  if t.kind ≠ k then .error "invalid signature"
  else if t.exp ≤ now then .error "jwt expired"
  else .ok t.sub

/-- The persisted refreshToken field of a principal document.  Mongo
distinguishes an absent field (after $unset / assigning undefined), an
explicit null, and a stored token string. -/
inductive RTField where
  | absent
  | null
  | stored (t : Token)
deriving DecidableEq

/-- Admin document (src/models/admin.model.js).  permissions is the stored
flag set; a name missing from the list reads as undefined in JS. -/
structure Admin where
  aid : Nat
  fullName : String
  email : String
  password : String
  role : String
  permissions : List (String × Bool)
  isActive : Bool
  refreshToken : RTField
deriving DecidableEq

/-- Client document (src/models/client.model.js). -/
structure Client where
  cid : Nat
  fullName : String
  email : String
  phone : String
  password : String
  status : String
  isEmailVerified : Bool
  refreshToken : RTField
  verificationToken : Option Token
deriving DecidableEq

/-- Admin.findById over the admins collection. -/
def findAdmin (db : List Admin) (i : Nat) : Option Admin :=
  db.find? (fun a => a.aid == i)

/-- Client.findById over the clients collection. -/
def findClient (db : List Client) (i : Nat) : Option Client :=
  db.find? (fun c => c.cid == i)

/-- Admin.findByIdAndUpdate: rewrite the matching document in place. -/
def updateAdmin (db : List Admin) (i : Nat) (f : Admin → Admin) : List Admin :=
  db.map (fun a => if a.aid == i then f a else a)

/-- Client.findByIdAndUpdate: rewrite the matching document in place. -/
def updateClient (db : List Client) (i : Nat) (f : Client → Client) : List Client :=
  db.map (fun c => if c.cid == i then f c else c)

/-- bcrypt.hash with the given cost factor, modelled as an injective
tagging of the plaintext. -/
def bcryptHash (cost : Nat) (p : String) : String :=
  "$2b$" ++ toString cost ++ "$" ++ p

/-- bcrypt.compare of a candidate plaintext against a stored hash. -/
def comparePassword (storedHash : String) (p : String) (cost : Nat) : Bool :=
  storedHash == bcryptHash cost p

/-- Whether an Except carries a success value. -/
def isOkE {α : Type} : Except ApiErr α → Bool
  | .ok _ => true
  | .error _ => false

/-! ## Permission evaluator (services.controller checkAdminPermissions) -/

/-- JS property access admin.permissions[permission]: some flag when the
name is stored, none (undefined) when it is absent. -/
def jsPermLookup (perms : List (String × Bool)) (p : String) : Option Bool :=
  (perms.find? (fun q => q.1 == p)).map (fun q => q.2)

/-- JS truthiness of the value checkAdminPermissions returns: undefined is
falsy, a boolean is itself. -/
def truthy : Option Bool → Bool
  | some b => b
  | none => false

/-- checkAdminPermissions(adminId, permission): loads the admin (404 when
missing), returns true for superadmin, otherwise the stored flag value
(undefined when the name is absent).  The second component is the admins
collection after the call, recording that the evaluation writes nothing. -/
def checkAdminPermissions (db : List Admin) (adminId : Nat) (p : String) :
    Except ApiErr (Option Bool) × List Admin :=
  match findAdmin db adminId with
  | none => (.error ⟨404, "Admin not found"⟩, db)
  | some a =>
    if a.role == "superadmin" then (.ok (some true), db)
    else (.ok (jsPermLookup a.permissions p), db)

/-- Spec-side permission rule, written from the words of the spec: true
for superadmin regardless of the name, otherwise the stored boolean flag,
defaulting to false when absent. -/
def hasPermissionSpec (a : Admin) (p : String) : Bool :=
  if a.role == "superadmin" then true else (jsPermLookup a.permissions p).getD false

/-! ## Password validation (src/utils/validator.utils.js and the Mongoose
password schema constraints) -/

/-- Regex class [A-Z]. -/
def isUpperAZ (c : Char) : Bool := ('A' ≤ c) && (c ≤ 'Z')

/-- Regex class [a-z]. -/
def isLowerAZ (c : Char) : Bool := ('a' ≤ c) && (c ≤ 'z')

/-- Regex class \d. -/
def isDigit09 (c : Char) : Bool := ('0' ≤ c) && (c ≤ '9')

/-- Character codes of the special-character regex class used by
isPasswordStrong. -/
def specialCodes : List Nat :=
  [33, 64, 35, 36, 37, 94, 38, 42, 40, 41, 95, 43, 45, 61, 91, 93,
   123, 125, 59, 39, 58, 34, 92, 124, 44, 46, 60, 62, 47, 63]

/-- Membership in the special-character class. -/
def isSpecialChar (c : Char) : Bool := specialCodes.contains c.toNat

/-- isPasswordStrong from src/utils/validator.utils.js: one uppercase, one
lowercase, one digit, one special character, length at least 6.  The same
predicate is imported by both the client and the admin controllers. -/
def isPasswordStrong (p : String) : Bool :=
  p.data.any isUpperAZ && p.data.any isLowerAZ && p.data.any isDigit09 &&
    p.data.any isSpecialChar && (6 ≤ p.length)

/-- The client-side password acceptance pipeline (registerClient): the
controller rejects weak passwords with a 400 ApiError, Mongoose schema
validation enforces minlength 6 (mapped to 400), and only then does the
pre-save hook hash with cost 10.  The Bool records whether a hash was
computed. -/
def clientPasswordGate (p : String) : Except ApiErr String × Bool :=
  if isPasswordStrong p = false then
    (.error ⟨400, "Password must be at least 6 characters with uppercase, lowercase, number and special character"⟩, false)
  else if p.length < 6 then
    (.error ⟨400, "Client validation failed: password is shorter than the minimum allowed length 6"⟩, false)
  else (.ok (bcryptHash 10 p), true)

/-- The admin-side password acceptance pipeline (createAdmin and the admin
password-change handlers): the controller rejects weak passwords with a
400 ApiError, Mongoose schema validation enforces minlength 8 (its
ValidationError is mapped to 400 by the catch block), and only then does
the pre-save hook hash with cost 12. -/
def adminPasswordGate (p : String) : Except ApiErr String × Bool :=
  if isPasswordStrong p = false then
    (.error ⟨400, "Password must be at least 8 characters with uppercase, lowercase, number, and special character"⟩, false)
  else if p.length < 8 then
    (.error ⟨400, "Admin validation failed: password is shorter than the minimum allowed length 8"⟩, false)
  else (.ok (bcryptHash 12 p), true)

/-- The four character-class requirements shared by both principals. -/
def hasAllClasses (p : String) : Bool :=
  p.data.any isUpperAZ && p.data.any isLowerAZ && p.data.any isDigit09 &&
    p.data.any isSpecialChar

/-! ## Auth middlewares (admin.middlewares and auth.middlewares) -/

/-- verifyAdminJwt: resolve the bearer token, verify it against the access
secret, load the admin with its refreshToken, reject missing/inactive
admins and an explicitly null stored refreshToken.  The whole body sits in
a try/catch whose catch rethrows every failure as ApiError(401, message),
so every error this middleware produces carries status 401. -/
def verifyAdminJwt (db : List Admin) (tok : Option Token) (now : Nat) :
    Except ApiErr Admin :=
  match tok with
  | none => .error ⟨401, "Unauthorized request - No token provided"⟩
  | some t =>
    match jwtVerify t .access now with
    | .error m => .error ⟨401, m⟩
    | .ok sub =>
      match findAdmin db sub with
      | none => .error ⟨401, "Invalid admin token or account inactive"⟩
      | some a =>
        if a.isActive = false then
          .error ⟨401, "Invalid admin token or account inactive"⟩
        else if a.refreshToken == RTField.null then
          .error ⟨401, "Token invalidated - please login again"⟩
        else .ok a

/-- verifyJwt (client): resolve the bearer token, verify it, load the
client.  The missing-client branch throws ApiError(403, ...) inside the
try, but the catch rewraps every failure as ApiError(401, message), so the
status produced at the boundary is always 401. -/
def verifyJwt (db : List Client) (tok : Option Token) (now : Nat) :
    Except ApiErr Client :=
  match tok with
  | none => .error ⟨401, "unauthorised request"⟩
  | some t =>
    match jwtVerify t .access now with
    | .error m => .error ⟨401, m⟩
    | .ok sub =>
      match findClient db sub with
      | none => .error ⟨401, "Invalid access Token"⟩
      | some c => .ok c

/-- verifyAdminRefreshToken middleware: requires the presented refresh
token to verify against the refresh secret and to equal the single stored
refreshToken value of the decoded admin. -/
def verifyAdminRefreshToken (db : List Admin) (incoming : Option Token) (now : Nat) :
    Except ApiErr Admin :=
  match incoming with
  | none => .error ⟨401, "Unauthorized request - No refresh token"⟩
  | some t =>
    match jwtVerify t .refresh now with
    | .error m => .error ⟨401, m⟩
    | .ok sub =>
      match findAdmin db sub with
      | none => .error ⟨401, "Invalid refresh token"⟩
      | some a =>
        if RTField.stored t ≠ a.refreshToken then
          .error ⟨401, "Refresh token is expired or used"⟩
        else .ok a

/-! ## Token rotation controllers (admin.controller refreshAdminToken,
client.controller refreshClientAccessToken) -/

/-- refreshAdminToken: verify the incoming refresh token, require equality
with the stored value, then issue a fresh access/refresh pair and
overwrite the stored refresh token with the new one.  The catch rewraps
every failure as ApiError(401, message). -/
def refreshAdminToken (db : List Admin) (incoming : Option Token) (now : Nat) :
    Except ApiErr (List Admin × Token × Token) :=
  match incoming with
  | none => .error ⟨401, "Unauthorized request - No refresh token"⟩
  | some t =>
    match jwtVerify t .refresh now with
    | .error m => .error ⟨401, m⟩
    | .ok sub =>
      match findAdmin db sub with
      | none => .error ⟨401, "Invalid refresh token"⟩
      | some a =>
        if RTField.stored t ≠ a.refreshToken then
          .error ⟨401, "Refresh token is expired or used"⟩
        else
          let newAccess := mkAccessToken a.aid now
          let newRefresh := mkRefreshToken a.aid now
          .ok (updateAdmin db a.aid (fun x => { x with refreshToken := .stored newRefresh }),
               newAccess, newRefresh)

/-- generateAccessAndRefreshToken helper of client.controller: loads the
client, issues both tokens, persists the new refresh token. -/
def generateAccessAndRefreshToken (db : List Client) (clientId now : Nat) :
    Except ApiErr (List Client × Token × Token) :=
  match findClient db clientId with
  | none => .error ⟨500, "Failed to generate access and refresh tokens"⟩
  | some c =>
    let accessToken := mkAccessToken c.cid now
    let refreshToken := mkRefreshToken c.cid now
    .ok (updateClient db c.cid (fun x => { x with refreshToken := .stored refreshToken }),
         accessToken, refreshToken)

/-- refreshClientAccessToken: missing token is 401; inside the try every
failure (bad signature, unknown client, stored-value mismatch) is rewrapped
by the catch as ApiError(500, message). -/
def refreshClientAccessToken (db : List Client) (incoming : Option Token) (now : Nat) :
    Except ApiErr (List Client × Token × Token) :=
  match incoming with
  | none => .error ⟨401, "Unauthorized request"⟩
  | some t =>
    match jwtVerify t .refresh now with
    | .error m => .error ⟨500, m⟩
    | .ok sub =>
      match findClient db sub with
      | none => .error ⟨500, "Invalid refresh token"⟩
      | some c =>
        if RTField.stored t ≠ c.refreshToken then
          .error ⟨500, "Invalid refresh token"⟩
        else generateAccessAndRefreshToken db c.cid now

/-! ## Login, logout and password-change handlers -/

/-- loginAdmin: validates input (email format via the validator-library
oracle), requires an active admin and a matching password, then issues a
token pair and stores the new refresh token. -/
def loginAdmin (db : List Admin) (email password : String)
    (emailValid : String → Bool) (now : Nat) :
    Except ApiErr (List Admin × Token × Token) :=
  if email == "" || password == "" then
    .error ⟨400, "Email and password are required"⟩
  else if emailValid email = false then
    .error ⟨400, "Invalid email format"⟩
  else
    match db.find? (fun a => a.email == email) with
    | none => .error ⟨404, "Admin not found"⟩
    | some a =>
      if a.isActive = false then
        .error ⟨403, "Admin account is inactive. Please contact superadmin."⟩
      else if comparePassword a.password password 12 = false then
        .error ⟨401, "Invalid credentials"⟩
      else
        let accessToken := mkAccessToken a.aid now
        let refreshToken := mkRefreshToken a.aid now
        .ok (updateAdmin db a.aid (fun x => { x with refreshToken := .stored refreshToken }),
             accessToken, refreshToken)

/-- loginClient: requires a verified email and a matching password, then
issues the pair through generateAccessAndRefreshToken. -/
def loginClient (db : List Client) (email password : String) (now : Nat) :
    Except ApiErr (List Client × Token × Token) :=
  if email == "" || password == "" then
    .error ⟨400, "Email and password are required"⟩
  else
    match db.find? (fun c => c.email == email) with
    | none => .error ⟨401, "Invalid credentials"⟩
    | some c =>
      if c.isEmailVerified = false then
        .error ⟨403, "Please verify your email first"⟩
      else if comparePassword c.password password 10 = false then
        .error ⟨401, "Invalid credentials"⟩
      else generateAccessAndRefreshToken db c.cid now

/-- logoutAdmin: Admin.findByIdAndUpdate with an $unset of refreshToken,
leaving the field absent (not null). -/
def logoutAdmin (db : List Admin) (adminId : Nat) : List Admin :=
  updateAdmin db adminId (fun a => { a with refreshToken := .absent })

/-- logoutClient: Client.findByIdAndUpdate with an $unset of refreshToken. -/
def logoutClient (db : List Client) (clientId : Nat) : List Client :=
  updateClient db clientId (fun c => { c with refreshToken := .absent })

/-- changePassword (admin): validates, compares the current password,
requires the new password to differ, saves the new hash with schema
validation (minlength 8), and clears the stored refreshToken (assigning
undefined removes the field).  The Bool records session.endSession in the
finally block. -/
def changePassword (db : List Admin) (adminId : Nat)
    (currentPassword newPassword : String) :
    (Except ApiErr Unit × List Admin) × Bool :=
  if currentPassword == "" || newPassword == "" then
    ((.error ⟨400, "Current and new passwords are required"⟩, db), true)
  else if isPasswordStrong newPassword = false then
    ((.error ⟨400, "Password must be at least 8 characters with uppercase, lowercase, number, and special character"⟩, db), true)
  else
    match findAdmin db adminId with
    | none => ((.error ⟨404, "Admin not found"⟩, db), true)
    | some a =>
      if comparePassword a.password currentPassword 12 = false then
        ((.error ⟨401, "Current password is incorrect"⟩, db), true)
      else if currentPassword == newPassword then
        ((.error ⟨400, "New password must be different from current password"⟩, db), true)
      else if newPassword.length < 8 then
        ((.error ⟨400, "Admin validation failed: password is shorter than the minimum allowed length 8"⟩, db), true)
      else
        ((.ok (), updateAdmin db adminId
            (fun x => { x with password := bcryptHash 12 newPassword,
                               refreshToken := .absent })), true)

/-- changeClientPassword: validates, compares the old password, checks
strength, then saves only the new password hash (validateBeforeSave is
false, and the stored refreshToken is left untouched by the source). -/
def changeClientPassword (db : List Client) (clientId : Nat)
    (oldPassword newPassword : String) :
    Except ApiErr Unit × List Client :=
  if oldPassword == "" || newPassword == "" then
    (.error ⟨400, "Both passwords are required"⟩, db)
  else
    match findClient db clientId with
    | none => (.error ⟨404, "Client not found"⟩, db)
    | some c =>
      if comparePassword c.password oldPassword 10 = false then
        (.error ⟨401, "Invalid current password"⟩, db)
      else if isPasswordStrong newPassword = false then
        (.error ⟨400, "Password must be at least 6 characters with uppercase, lowercase, number and special character"⟩, db)
      else
        (.ok (), updateClient db clientId
            (fun x => { x with password := bcryptHash 10 newPassword }))

/-! ## Blog ownership (adminDashboard.controller) -/

/-- Blog document (the fields deleteBlog touches). -/
structure Blog where
  bid : Nat
  author : Nat
  coverImageUrl : String
deriving DecidableEq

/-- verifyBlogOwnership(clientId, blogId): the requesting client must
exist (404) and be active (403); then the blog must exist (404) and its
author must equal the requester (403).  Blog existence is checked before
ownership. -/
def verifyBlogOwnership (clients : List Client) (blogs : List Blog)
    (clientId blogId : Nat) : Except ApiErr Unit :=
  match findClient clients clientId with
  | none => .error ⟨404, "Client not found"⟩
  | some c =>
    if c.status ≠ "active" then
      .error ⟨403, "Client account is not active"⟩
    else
      match blogs.find? (fun b => b.bid == blogId) with
      | none => .error ⟨404, "Blog not found"⟩
      | some b =>
        if b.author ≠ clientId then
          .error ⟨403, "Unauthorized: You do not own this blog"⟩
        else .ok ()

/-- deleteBlog: ownership check, then load the blog in the session, a
best-effort cover-image delete whose failure is swallowed by an inner
try/catch (cloudThrows has no effect on the outcome), then remove the
blog and commit; any error aborts the session, leaving the blogs
collection unchanged. -/
def deleteBlog (clients : List Client) (blogs : List Blog)
    (clientId blogId : Nat) (cloudThrows : Bool) :
    Except ApiErr Unit × List Blog :=
  match verifyBlogOwnership clients blogs clientId blogId with
  | .error e => (.error e, blogs)
  | .ok _ =>
    match blogs.find? (fun b => b.bid == blogId) with
    | none => (.error ⟨404, "Blog not found"⟩, blogs)
    | some _b =>
      (.ok (), blogs.filter (fun b => !(b.bid == blogId)))

/-! ## Registration and admin creation (client.controller registerClient,
admin.controller createAdmin) -/

/-- isStringEmpty from validator.utils.js: the string trims to empty, i.e.
every character is whitespace (and falsy strings are empty). -/
def isStringEmpty (s : String) : Bool := s.data.all Char.isWhitespace

/-- areRequiredFieldsProvided from validator.utils.js. -/
def areRequiredFieldsProvided (fields : List String) : Bool :=
  fields.all (fun f => !isStringEmpty f)

/-- Input to registerClient. -/
structure RegisterInput where
  fullName : String
  email : String
  password : String
  phone : String

/-- External collaborators of registerClient: the validator library for
email/phone formats, the email transport, the generated document id, and
the current time. -/
structure RegisterEnv where
  emailValid : String → Bool
  phoneValid : String → Bool
  sendEmailOk : Bool
  newId : Nat
  now : Nat

/-- registerClient: all writes are issued inside one transaction session;
any error aborts the session (restoring the initial clients collection)
before being rethrown, and success commits the working copy.  The steps
are: input validation, duplicate checks, Client.create (schema validation
then cost-10 hashing), verification-token save, verification email. -/
def registerClient (db : List Client) (inp : RegisterInput) (env : RegisterEnv) :
    Except ApiErr Client × List Client :=
  if !areRequiredFieldsProvided [inp.fullName, inp.email, inp.password, inp.phone] then
    (.error ⟨400, "All fields are required"⟩, db)
  else if env.emailValid inp.email = false then
    (.error ⟨400, "Invalid email format"⟩, db)
  else if env.phoneValid inp.phone = false then
    (.error ⟨400, "Invalid phone number"⟩, db)
  else if isPasswordStrong inp.password = false then
    (.error ⟨400, "Password must be at least 6 characters with uppercase, lowercase, number and special character"⟩, db)
  else if (db.find? (fun c => c.email == inp.email)).isSome then
    (.error ⟨409, "Email already registered"⟩, db)
  else if (db.find? (fun c => c.phone == inp.phone)).isSome then
    (.error ⟨409, "Phone number already registered"⟩, db)
  else
    let vtok := mkAccessToken env.newId env.now
    let created : Client :=
      { cid := env.newId, fullName := inp.fullName, email := inp.email,
        phone := inp.phone, password := bcryptHash 10 inp.password,
        status := "active", isEmailVerified := false,
        refreshToken := .absent, verificationToken := some vtok }
    if env.sendEmailOk = false then
      (.error ⟨500, "Failed to register client"⟩, db)
    else
      (.ok created, db ++ [created])

/-- Input to createAdmin. -/
structure CreateAdminInput where
  fullName : String
  email : String
  password : String
  role : String

/-- Default permission sets assigned by createAdmin per role. -/
def defaultPermissionsFor (role : String) : List (String × Bool) :=
  if role == "admin" then
    [("manageServices", true), ("managePortfolio", true), ("manageClients", true),
     ("manageProjects", true), ("manageTeam", true), ("manageTestimonials", true),
     ("manageBlog", true), ("manageLeads", true), ("manageContacts", true),
     ("sendBulkEmails", true), ("manageInvoices", true), ("managePayments", true),
     ("managePlans", true), ("viewActivityLogs", true)]
  else if role == "moderator" then
    [("manageBlog", true), ("manageTestimonials", true), ("manageLeads", true),
     ("manageContacts", true), ("viewActivityLogs", false)]
  else if role == "client" then
    [("manageProjects", false), ("viewActivityLogs", false)]
  else []

/-- createAdmin: superadmin-only; validates input, role and password
(controller predicate then schema minlength 8, both before the cost-12
hashing pre-save hook), checks email uniqueness, creates the admin inside
the session and commits.  Any error aborts the session, leaving the
admins collection unchanged; the finally block always ends the session
(the trailing Bool). -/
def createAdmin (db : List Admin) (requesterRole : String)
    (inp : CreateAdminInput) (emailValid : String → Bool) (newId : Nat) :
    (Except ApiErr Admin × List Admin) × Bool :=
  if requesterRole ≠ "superadmin" then
    ((.error ⟨403, "Unauthorized: Only superadmin can create admin accounts"⟩, db), true)
  else if !areRequiredFieldsProvided [inp.fullName, inp.email, inp.password, inp.role] then
    ((.error ⟨400, "All fields (fullName, email, password, role) are required"⟩, db), true)
  else if emailValid inp.email = false then
    ((.error ⟨400, "Invalid email format"⟩, db), true)
  else if isPasswordStrong inp.password = false then
    ((.error ⟨400, "Password must be at least 8 characters with uppercase, lowercase, number, and special character"⟩, db), true)
  else if !(["admin", "moderator", "client"].contains inp.role) then
    ((.error ⟨400, "Role must be one of: admin, moderator, client"⟩, db), true)
  else if (db.find? (fun a => a.email == inp.email)).isSome then
    ((.error ⟨409, "Email already in use by another admin"⟩, db), true)
  else if inp.password.length < 8 then
    ((.error ⟨400, "Admin validation failed: password is shorter than the minimum allowed length 8"⟩, db), true)
  else
    let created : Admin :=
      { aid := newId, fullName := inp.fullName, email := inp.email,
        password := bcryptHash 12 inp.password, role := inp.role,
        permissions := defaultPermissionsFor inp.role, isActive := true,
        refreshToken := .absent }
    ((.ok created, db ++ [created]), true)

/-! ## Services (services.controller) -/

/-- Service document (the fields the claims touch). -/
structure Service where
  sid : Nat
  title : String
  createdBy : Nat
  status : String
  thumbnail : Option String
deriving DecidableEq

/-- Outcome of a deleteFromCloudinary call as observed by callers: a
response with result ok, a response with a non-ok result, or a thrown
error. -/
inductive CloudDelete where
  | ok
  | badResult
  | thrown
deriving DecidableEq

/-- deleteService: permission check, service lookup, creator-or-superadmin
check, then a best-effort thumbnail delete wrapped in its own try/catch
(a thrown Cloudinary error is logged and swallowed, and the result value
is never inspected, so cloud has no effect), then the service is removed
and the session committed; errors abort the session.  The finally block
always ends the session. -/
def deleteService (admins : List Admin) (services : List Service)
    (adminId serviceId : Nat) (cloud : CloudDelete) :
    (Except ApiErr Unit × List Service) × Bool :=
  match findAdmin admins adminId with
  | none => ((.error ⟨404, "Admin not found"⟩, services), true)
  | some reqAdmin =>
    let hasPermission :=
      if reqAdmin.role == "superadmin" then true
      else truthy (jsPermLookup reqAdmin.permissions "manageServices")
    if hasPermission = false then
      ((.error ⟨403, "Unauthorized: You do not have permission to manage services"⟩, services), true)
    else
      match services.find? (fun s => s.sid == serviceId) with
      | none => ((.error ⟨404, "Service not found"⟩, services), true)
      | some s =>
        if s.createdBy ≠ reqAdmin.aid ∧ reqAdmin.role ≠ "superadmin" then
          ((.error ⟨403, "Unauthorized: You can only delete services you created"⟩, services), true)
        else
          ((.ok (), services.filter (fun x => !(x.sid == serviceId))), true)

/-- uploadThumbnail: starts a session but, unlike every sibling handler,
has no finally block and never calls session.endSession, so the trailing
Bool (session ended) is false on every path.  The catch block rewraps
every error as ApiError(500, message).  An existing thumbnail is deleted
from Cloudinary outside any inner try/catch, so a thrown delete fails the
handler. -/
def uploadThumbnail (admins : List Admin) (services : List Service)
    (adminId serviceId : Nat) (filePath : Option String)
    (uploadResult : Option String) (cloud : CloudDelete) :
    (Except ApiErr String × List Service) × Bool :=
  match findAdmin admins adminId with
  | none => ((.error ⟨500, "Admin not found"⟩, services), false)
  | some reqAdmin =>
    let hasPermission :=
      if reqAdmin.role == "superadmin" then true
      else truthy (jsPermLookup reqAdmin.permissions "manageServices")
    if hasPermission = false then
      ((.error ⟨500, "Unauthorized: You do not have permission to manage services"⟩, services), false)
    else if filePath.isNone then
      ((.error ⟨500, "Thumbnail file is required"⟩, services), false)
    else
      match services.find? (fun s => s.sid == serviceId) with
      | none => ((.error ⟨500, "Service not found"⟩, services), false)
      | some s =>
        if s.createdBy ≠ reqAdmin.aid ∧ reqAdmin.role ≠ "superadmin" then
          ((.error ⟨500, "Unauthorized: You can only update services you created"⟩, services), false)
        else
          match uploadResult with
          | none => ((.error ⟨500, "Failed to upload thumbnail"⟩, services), false)
          | some url =>
            if s.thumbnail.isSome ∧ cloud = .thrown then
              ((.error ⟨500, "cloudinary delete failed"⟩, services), false)
            else
              ((.ok url,
                services.map (fun x => if x.sid == serviceId then { x with thumbnail := some url } else x)),
               false)

/-! ## Client service requests (clientService.controller
deleteServiceRequestAttachment) -/

/-- Embedded attachment subdocument. -/
structure Attachment where
  publicId : String
  resourceType : String
deriving DecidableEq

/-- ClientServiceRequest document (the fields the claims touch). -/
structure ServiceRequest where
  rid : Nat
  createdBy : Nat
  attachments : List Attachment
deriving DecidableEq

/-- deleteServiceRequestAttachment: validates the publicId, loads the
request owned by the caller, finds the attachment, then calls
deleteFromCloudinary.  A thrown delete is rewrapped by the catch as
ApiError(500, "Attachment deletion failed"); a response whose result is
not ok raises ApiError(500, "Failed to delete attachment from storage").
Only when the external delete reports ok is the attachment pulled from the
document and the session committed; every error path aborts the session,
leaving the collection unchanged.  The finally block always ends the
session. -/
def deleteServiceRequestAttachment (reqs : List ServiceRequest)
    (clientId requestId : Nat) (publicId : String) (cloud : CloudDelete) :
    (Except ApiErr (List Attachment) × List ServiceRequest) × Bool :=
  if publicId == "" then
    ((.error ⟨400, "Valid attachment public ID is required"⟩, reqs), true)
  else
    match reqs.find? (fun r => r.rid == requestId && r.createdBy == clientId) with
    | none => ((.error ⟨404, "Service request not found"⟩, reqs), true)
    | some sr =>
      match sr.attachments.find? (fun att => att.publicId == publicId) with
      | none => ((.error ⟨404, "Attachment not found in this request"⟩, reqs), true)
      | some _att =>
        match cloud with
        | .thrown => ((.error ⟨500, "Attachment deletion failed"⟩, reqs), true)
        | .badResult => ((.error ⟨500, "Failed to delete attachment from storage"⟩, reqs), true)
        | .ok =>
          let newAtts := sr.attachments.filter (fun att => !(att.publicId == publicId))
          ((.ok newAtts,
            reqs.map (fun r => if r.rid == requestId then { r with attachments := newAtts } else r)),
           true)

/-! ## Concrete records used to instantiate the theorems -/

/-- A non-superadmin moderator used to instantiate the C2 theorem. -/
def c2ModAdmin : Admin :=
  { aid := 1, fullName := "Mod", email := "mod@example.com", password := "h",
    role := "moderator", permissions := [("manageBlog", true)],
    isActive := true, refreshToken := .absent }

/-- A valid-token admin whose account is inactive, for the C8
counterexample. -/
def c8InactiveAdmin : Admin :=
  { aid := 2, fullName := "Inactive", email := "inactive@example.com",
    password := "h", role := "admin", permissions := [],
    isActive := false, refreshToken := .stored (mkRefreshToken 2 0) }

/-- A logged-in active admin used to instantiate C10. -/
def c10Admin : Admin :=
  { aid := 3, fullName := "Root", email := "root@example.com",
    password := "h", role := "superadmin", permissions := [],
    isActive := true, refreshToken := .stored (mkRefreshToken 3 0) }

/-- Admin with a stored refresh token used to instantiate C1. -/
def c1Admin : Admin :=
  { aid := 4, fullName := "A", email := "a4@example.com", password := "h",
    role := "admin", permissions := [], isActive := true,
    refreshToken := .stored (mkRefreshToken 4 0) }

/-- Client with a stored refresh token used to instantiate C1. -/
def c1Client : Client :=
  { cid := 9, fullName := "C", email := "c9@example.com", phone := "123",
    password := "h", status := "active", isEmailVerified := true,
    refreshToken := .stored (mkRefreshToken 9 0), verificationToken := none }

/-- Active client and foreign-owned blog used to instantiate C3. -/
def c3Client : Client :=
  { cid := 11, fullName := "Owner", email := "o@example.com", phone := "1",
    password := "h", status := "active", isEmailVerified := true,
    refreshToken := .absent, verificationToken := none }

/-- A blog owned by a different client (author 12), for the C3 witness. -/
def c3ForeignBlog : Blog := { bid := 30, author := 12, coverImageUrl := "" }

/-- Registration input used for the C4 witness. -/
def c4Input : RegisterInput :=
  { fullName := "Jane Doe", email := "jane@example.com",
    password := "Abc123!@", phone := "5550001" }

/-- Environment whose email transport fails, for the C4 witness: the
client is created inside the session and the later email step fails. -/
def c4EnvEmailFails : RegisterEnv :=
  { emailValid := fun _ => true, phoneValid := fun _ => true,
    sendEmailOk := false, newId := 21, now := 0 }

/-- Superadmin used to drive the C5 concrete run. -/
def c5Admin : Admin :=
  { aid := 5, fullName := "Root", email := "root5@example.com", password := "h",
    role := "superadmin", permissions := [], isActive := true, refreshToken := .absent }

/-- Service owned by c5Admin with no thumbnail yet, for the C5 run. -/
def c5Service : Service :=
  { sid := 40, title := "Site", createdBy := 5, status := "active", thumbnail := none }

/-- Verified client whose password hash matches "Old123!@" and who holds a
stored refresh token, for the C7 counterexample. -/
def c7Client : Client :=
  { cid := 1, fullName := "C", email := "c@example.com", phone := "555",
    password := bcryptHash 10 "Old123!@", status := "active",
    isEmailVerified := true, refreshToken := .stored (mkRefreshToken 1 0),
    verificationToken := none }

/-- Admin credential record for the C7 witness. -/
def c7Admin : Admin :=
  { aid := 6, fullName := "A", email := "a6@example.com",
    password := bcryptHash 12 "Adm123!@", role := "admin", permissions := [],
    isActive := true, refreshToken := .absent }

/-- Client credential record for the C7 witness. -/
def c7LoginClient : Client :=
  { cid := 8, fullName := "C", email := "c8@example.com", phone := "556",
    password := bcryptHash 10 "Cli123!@", status := "active",
    isEmailVerified := true, refreshToken := .absent, verificationToken := none }

/-- Service request with one attachment, for the C9 counterexample. -/
def c9Request : ServiceRequest :=
  { rid := 1, createdBy := 7, attachments := [{ publicId := "p1", resourceType := "image" }] }

/-- Creator admin of the C9 witness service. -/
def c9Admin : Admin :=
  { aid := 7, fullName := "A", email := "a7@example.com", password := "h",
    role := "admin", permissions := [("manageServices", true)],
    isActive := true, refreshToken := .absent }

/-- Service owned by c9Admin for the C9 witness. -/
def c9Service : Service :=
  { sid := 50, title := "S", createdBy := 7, status := "active",
    thumbnail := some "https://cdn.example.com/t.png" }

/-! ## Helper lemmas -/

theorem findAdmin_updateAdmin (db : List Admin) (i j : Nat) (f : Admin → Admin)
    (hf : ∀ a, (f a).aid = a.aid) :
    findAdmin (updateAdmin db i f) j =
      (findAdmin db j).map (fun a => if a.aid == i then f a else a) := by
  have hp : ((fun a => a.aid == j) ∘ (fun (a : Admin) => if a.aid == i then f a else a)) =
      (fun (a : Admin) => a.aid == j) := by
    funext a
    by_cases h : a.aid = i <;> simp [Function.comp, h, hf]
  simp only [findAdmin, updateAdmin, List.find?_map, hp]

theorem findClient_updateClient (db : List Client) (i j : Nat) (f : Client → Client)
    (hf : ∀ c, (f c).cid = c.cid) :
    findClient (updateClient db i f) j =
      (findClient db j).map (fun c => if c.cid == i then f c else c) := by
  have hp : ((fun c => c.cid == j) ∘ (fun (c : Client) => if c.cid == i then f c else c)) =
      (fun (c : Client) => c.cid == j) := by
    funext c
    by_cases h : c.cid = i <;> simp [Function.comp, h, hf]
  simp only [findClient, updateClient, List.find?_map, hp]

theorem jwtVerify_ok {t : Token} {k : SecretKind} {now s : Nat}
    (h : jwtVerify t k now = .ok s) : s = t.sub ∧ t.kind = k ∧ now < t.exp := by
  unfold jwtVerify at h
  by_cases h1 : t.kind = k
  · by_cases h2 : t.exp ≤ now
    · simp [h1, h2] at h
    · simp [h1, h2] at h
      exact ⟨h.symm, h1, Nat.lt_of_not_le h2⟩
  · simp [h1] at h

theorem jwtVerify_of_valid {t : Token} {k : SecretKind} {now : Nat}
    (h1 : t.kind = k) (h2 : now < t.exp) : jwtVerify t k now = .ok t.sub := by
  unfold jwtVerify
  simp [h1, Nat.not_le.mpr h2]

theorem verifyAdminRefreshToken_ok_stored {db : List Admin} {t : Token} {n : Nat}
    {b : Admin} (h : verifyAdminRefreshToken db (some t) n = .ok b) :
    findAdmin db t.sub = some b ∧ b.refreshToken = RTField.stored t := by
  simp only [verifyAdminRefreshToken] at h
  cases hv : jwtVerify t .refresh n with
  | error m =>
    simp only [hv] at h
    exact Except.noConfusion h
  | ok sub =>
    obtain ⟨hsub, -, -⟩ := jwtVerify_ok hv
    subst hsub
    simp only [hv] at h
    cases hf : findAdmin db t.sub with
    | none =>
      simp only [hf] at h
      exact Except.noConfusion h
    | some a =>
      simp only [hf] at h
      split at h
      · exact Except.noConfusion h
      · cases h
        rename_i hne
        exact ⟨rfl, (not_ne_iff.mp hne).symm⟩

theorem refreshClientAccessToken_ok_stored {db : List Client} {u : Token} {n : Nat}
    {r : List Client × Token × Token}
    (h : refreshClientAccessToken db (some u) n = .ok r) :
    ∃ c, findClient db u.sub = some c ∧ c.refreshToken = RTField.stored u := by
  simp only [refreshClientAccessToken] at h
  cases hv : jwtVerify u .refresh n with
  | error m =>
    simp only [hv] at h
    exact Except.noConfusion h
  | ok sub =>
    obtain ⟨hsub, -, -⟩ := jwtVerify_ok hv
    subst hsub
    simp only [hv] at h
    cases hf : findClient db u.sub with
    | none =>
      simp only [hf] at h
      exact Except.noConfusion h
    | some c =>
      simp only [hf] at h
      split at h
      · exact Except.noConfusion h
      · rename_i hne
        exact ⟨c, rfl, (not_ne_iff.mp hne).symm⟩

/-! ## Claim C2: permission evaluation -/

/-- C2: for every admin and permission name, the evaluation used by route
handlers yields true for superadmin regardless of the name, otherwise
exactly the stored flag (false when absent), agrees with the spec rule,
and performs no writes (the admins collection is returned unchanged). -/
theorem checkAdminPermissions_matches_spec (db : List Admin) (i : Nat) (p : String)
    (a : Admin) (h : findAdmin db i = some a) :
    ∃ r, checkAdminPermissions db i p = (.ok r, db) ∧
      truthy r = hasPermissionSpec a p ∧
      (a.role = "superadmin" → r = some true) ∧
      (a.role ≠ "superadmin" → r = jsPermLookup a.permissions p) ∧
      (a.role ≠ "superadmin" → jsPermLookup a.permissions p = none → truthy r = false) := by
  unfold checkAdminPermissions hasPermissionSpec
  rw [h]
  by_cases hr : a.role = "superadmin"
  · refine ⟨some true, ?_, ?_, fun _ => rfl, fun hc => absurd hr hc, fun hc _ => absurd hr hc⟩
    · simp [hr]
    · simp [hr, truthy]
  · refine ⟨jsPermLookup a.permissions p, ?_, ?_, fun hc => absurd hc hr, fun _ => rfl, ?_⟩
    · simp [hr]
    · simp only [beq_iff_eq, hr, ite_false]
      cases hl : jsPermLookup a.permissions p <;> simp [truthy]
    · intro _ hl
      simp [truthy, hl]

/-- Witness for C2 at a concrete admin and permission name. -/
theorem checkAdminPermissions_matches_spec_witness :
    findAdmin [c2ModAdmin] 1 = some c2ModAdmin ∧
    (∃ r, checkAdminPermissions [c2ModAdmin] 1 "manageServices" = (.ok r, [c2ModAdmin]) ∧
      truthy r = hasPermissionSpec c2ModAdmin "manageServices" ∧
      (c2ModAdmin.role = "superadmin" → r = some true) ∧
      (c2ModAdmin.role ≠ "superadmin" → r = jsPermLookup c2ModAdmin.permissions "manageServices") ∧
      (c2ModAdmin.role ≠ "superadmin" → jsPermLookup c2ModAdmin.permissions "manageServices" = none →
        truthy r = false)) :=
  ⟨by decide, checkAdminPermissions_matches_spec [c2ModAdmin] 1 "manageServices" c2ModAdmin (by decide)⟩

/-! ## Claim C6: password strength -/

/-- C6: the pre-hash password gates require the four character classes and
length at least 6 (Client) or 8 (Admin); a violating password is rejected
with status 400 and no hash is computed; "abc123" is rejected and
"Abc123!@" accepted by both. -/
theorem passwordGates_enforce_strength (p : String) :
    (isOkE (clientPasswordGate p).1 = true ↔ hasAllClasses p = true ∧ 6 ≤ p.length) ∧
    (isOkE (adminPasswordGate p).1 = true ↔ hasAllClasses p = true ∧ 8 ≤ p.length) ∧
    (∀ e h, clientPasswordGate p = (.error e, h) → e.status = 400 ∧ h = false) ∧
    (∀ e h, adminPasswordGate p = (.error e, h) → e.status = 400 ∧ h = false) ∧
    isPasswordStrong "abc123" = false ∧
    isPasswordStrong "Abc123!@" = true ∧
    isOkE (clientPasswordGate "abc123").1 = false ∧
    isOkE (adminPasswordGate "abc123").1 = false ∧
    isOkE (clientPasswordGate "Abc123!@").1 = true ∧
    isOkE (adminPasswordGate "Abc123!@").1 = true := by
  have hstrong : isPasswordStrong p = (hasAllClasses p && decide (6 ≤ p.length)) := by
    unfold isPasswordStrong hasAllClasses
    by_cases h6 : 6 ≤ p.length <;> simp [h6]
  refine ⟨?_, ?_, ?_, ?_, by decide, by decide, by decide, by decide, by decide, by decide⟩
  · unfold clientPasswordGate
    rw [hstrong]
    by_cases hc : hasAllClasses p = true
    · by_cases h6 : 6 ≤ p.length
      · simp [hc, h6, isOkE, Nat.not_lt.mpr h6]
      · simp [hc, h6, isOkE]
    · simp [Bool.eq_false_iff.mpr hc, isOkE, hc]
  · unfold adminPasswordGate
    rw [hstrong]
    by_cases hc : hasAllClasses p = true
    · by_cases h6 : 6 ≤ p.length
      · by_cases h8 : 8 ≤ p.length
        · simp [hc, h6, h8, isOkE, Nat.not_lt.mpr h8]
        · simp [hc, h6, h8, isOkE, Nat.lt_of_not_le h8]
      · have h8 : ¬ 8 ≤ p.length := fun h => h6 (le_trans (by norm_num) h)
        simp [hc, h6, h8, isOkE]
    · simp [Bool.eq_false_iff.mpr hc, isOkE, hc]
  · intro e h heq
    unfold clientPasswordGate at heq
    split at heq
    · cases heq; exact ⟨rfl, rfl⟩
    · split at heq
      · cases heq; exact ⟨rfl, rfl⟩
      · cases heq
  · intro e h heq
    unfold adminPasswordGate at heq
    split at heq
    · cases heq; exact ⟨rfl, rfl⟩
    · split at heq
      · cases heq; exact ⟨rfl, rfl⟩
      · cases heq

/-- Witness for C6 at the spec's concrete example passwords. -/
theorem passwordGates_enforce_strength_witness :
    isOkE (clientPasswordGate "Abc123!@").1 = true ∧
    isOkE (adminPasswordGate "Abc123!@").1 = true :=
  ⟨((passwordGates_enforce_strength "Abc123!@").1).mpr (by decide),
   ((passwordGates_enforce_strength "Abc123!@").2.1).mpr (by decide)⟩

/-! ## Claim C8: auth-middleware status codes -/

/-- C8 counterexample: a syntactically valid, unexpired access token for
an inactive admin is rejected by verifyAdminJwt with status 401, not the
403 the claim requires for a valid token whose principal is disabled. -/
theorem verifyAdminJwt_inactive_gives_401 :
    jwtVerify (mkAccessToken 2 0) .access 5 = .ok 2 ∧
    c8InactiveAdmin.isActive = false ∧
    verifyAdminJwt [c8InactiveAdmin] (some (mkAccessToken 2 0)) 5 =
      .error ⟨401, "Invalid admin token or account inactive"⟩ :=
  ⟨rfl, rfl, rfl⟩

/-- C8 (amended): every failure of either auth middleware carries status
401 — missing, invalid and expired tokens, unknown principals, inactive
admins and invalidated tokens alike — because each middleware catch block
rewraps all errors as ApiError(401, message); 403 responses come from
handler-level checks, not this boundary. -/
theorem authMiddleware_failures_are_401 :
    (∀ (db : List Admin) (tok : Option Token) (now : Nat) (e : ApiErr),
        verifyAdminJwt db tok now = .error e → e.status = 401) ∧
    (∀ (db : List Client) (tok : Option Token) (now : Nat) (e : ApiErr),
        verifyJwt db tok now = .error e → e.status = 401) := by
  constructor
  · intro db tok now e h
    cases tok with
    | none =>
      simp only [verifyAdminJwt] at h
      cases h; rfl
    | some t =>
      simp only [verifyAdminJwt] at h
      cases hv : jwtVerify t .access now with
      | error m =>
        simp only [hv] at h
        cases h; rfl
      | ok sub =>
        simp only [hv] at h
        cases hf : findAdmin db sub with
        | none => simp only [hf] at h; cases h; rfl
        | some a =>
          simp only [hf] at h
          split at h
          · cases h; rfl
          · split at h
            · cases h; rfl
            · cases h
  · intro db tok now e h
    cases tok with
    | none =>
      simp only [verifyJwt] at h
      cases h; rfl
    | some t =>
      simp only [verifyJwt] at h
      cases hv : jwtVerify t .access now with
      | error m =>
        simp only [hv] at h
        cases h; rfl
      | ok sub =>
        simp only [hv] at h
        cases hf : findClient db sub with
        | none => simp only [hf] at h; cases h; rfl
        | some c => simp only [hf] at h; cases h

/-- Witness for the amended C8 at concrete failing requests. -/
theorem authMiddleware_failures_are_401_witness :
    verifyAdminJwt [] none 0 = .error ⟨401, "Unauthorized request - No token provided"⟩ ∧
    (ApiErr.mk 401 "Unauthorized request - No token provided").status = 401 ∧
    verifyJwt [] none 0 = .error ⟨401, "unauthorised request"⟩ ∧
    (ApiErr.mk 401 "unauthorised request").status = 401 :=
  ⟨rfl, authMiddleware_failures_are_401.1 [] none 0 _ rfl,
   rfl, authMiddleware_failures_are_401.2 [] none 0 _ rfl⟩

/-! ## Claim C10: logout leaves admin access tokens accepted -/

/-- C10: logoutAdmin removes the stored refreshToken with $unset, leaving
the field absent rather than null; verifyAdminJwt rejects with the
token-invalidated error only when the stored field is exactly null, so an
otherwise valid, unexpired access token of a logged-out active admin is
still accepted. -/
theorem verifyAdminJwt_accepts_after_logout (db : List Admin) (i now : Nat)
    (t : Token) (a : Admin) (h : findAdmin db i = some a)
    (hact : a.isActive = true) (hk : t.kind = .access) (hs : t.sub = i)
    (hexp : now < t.exp) :
    (findAdmin (logoutAdmin db i) i).map Admin.refreshToken = some RTField.absent ∧
    verifyAdminJwt (logoutAdmin db i) (some t) now =
      .ok { a with refreshToken := .absent } := by
  have haid : a.aid = i := by
    have h' : db.find? (fun x => x.aid == i) = some a := h
    have := List.find?_some h'
    simpa using this
  have hupd : findAdmin (logoutAdmin db i) i = some { a with refreshToken := .absent } := by
    unfold logoutAdmin
    rw [findAdmin_updateAdmin db i i
        (fun x => { x with refreshToken := RTField.absent }) (fun _ => rfl), h]
    simp [haid]
  refine ⟨by rw [hupd]; rfl, ?_⟩
  unfold verifyAdminJwt
  simp only [jwtVerify, hk, hs, ne_eq, not_true_eq_false, ite_false,
    Nat.not_le.mpr hexp, if_neg, hupd]
  simp [hupd, hact, Nat.not_le.mpr hexp]

/-- Witness for C10 at a concrete admin, token and time. -/
theorem verifyAdminJwt_accepts_after_logout_witness :
    findAdmin [c10Admin] 3 = some c10Admin ∧
    ((findAdmin (logoutAdmin [c10Admin] 3) 3).map Admin.refreshToken = some RTField.absent ∧
      verifyAdminJwt (logoutAdmin [c10Admin] 3) (some (mkAccessToken 3 0)) 5 =
        .ok { c10Admin with refreshToken := .absent }) :=
  ⟨rfl,
   verifyAdminJwt_accepts_after_logout [c10Admin] 3 5 (mkAccessToken 3 0) c10Admin
     rfl rfl rfl rfl (by decide)⟩

/-! ## Claim C1: refresh rotation and the single-valid-instance invariant -/

/-- C1: for both principals a successful refresh issues a new access and
refresh token and overwrites the stored refresh token with the new one;
presenting the previously used refresh token afterwards fails the
equality check against the single stored value; and any token accepted by
refresh verification equals the stored value, so at every point at most
one refresh token per principal passes verification. -/
theorem refresh_rotation_single_valid_instance
    (db : List Admin) (a : Admin) (t : Token) (now now2 : Nat)
    (dbc : List Client) (c : Client) (u : Token) (nowc nowc2 : Nat)
    (hfa : findAdmin db t.sub = some a) (hsa : a.refreshToken = .stored t)
    (hka : t.kind = .refresh) (hea : now < t.exp) (hia : t.iat ≠ now)
    (hea2 : now2 < t.exp)
    (hfc : findClient dbc u.sub = some c) (hsc : c.refreshToken = .stored u)
    (hkc : u.kind = .refresh) (hec : nowc < u.exp) (hic : u.iat ≠ nowc)
    (hec2 : nowc2 < u.exp) :
    (refreshAdminToken db (some t) now =
      .ok (updateAdmin db a.aid
            (fun x => { x with refreshToken := .stored (mkRefreshToken a.aid now) }),
           mkAccessToken a.aid now, mkRefreshToken a.aid now)) ∧
    (findAdmin (updateAdmin db a.aid
        (fun x => { x with refreshToken := .stored (mkRefreshToken a.aid now) })) t.sub =
      some { a with refreshToken := .stored (mkRefreshToken a.aid now) }) ∧
    (refreshAdminToken (updateAdmin db a.aid
        (fun x => { x with refreshToken := .stored (mkRefreshToken a.aid now) }))
        (some t) now2 = .error ⟨401, "Refresh token is expired or used"⟩) ∧
    (∀ (db' : List Admin) (t1 t2 : Token) (n1 n2 : Nat) (b : Admin),
        verifyAdminRefreshToken db' (some t1) n1 = .ok b →
        verifyAdminRefreshToken db' (some t2) n2 = .ok b → t1 = t2) ∧
    (refreshClientAccessToken dbc (some u) nowc =
      .ok (updateClient dbc c.cid
            (fun x => { x with refreshToken := .stored (mkRefreshToken c.cid nowc) }),
           mkAccessToken c.cid nowc, mkRefreshToken c.cid nowc)) ∧
    (findClient (updateClient dbc c.cid
        (fun x => { x with refreshToken := .stored (mkRefreshToken c.cid nowc) })) u.sub =
      some { c with refreshToken := .stored (mkRefreshToken c.cid nowc) }) ∧
    (refreshClientAccessToken (updateClient dbc c.cid
        (fun x => { x with refreshToken := .stored (mkRefreshToken c.cid nowc) }))
        (some u) nowc2 = .error ⟨500, "Invalid refresh token"⟩) ∧
    (∀ (db' : List Client) (u' : Token) (n' : Nat) (r : List Client × Token × Token),
        refreshClientAccessToken db' (some u') n' = .ok r →
        ∃ c', findClient db' u'.sub = some c' ∧ c'.refreshToken = .stored u') := by
  have haid : a.aid = t.sub := by
    have h' : db.find? (fun x => x.aid == t.sub) = some a := hfa
    simpa using List.find?_some h'
  have hcid : c.cid = u.sub := by
    have h' : dbc.find? (fun x => x.cid == u.sub) = some c := hfc
    simpa using List.find?_some h'
  have hupdA : findAdmin (updateAdmin db a.aid
      (fun x => { x with refreshToken := RTField.stored (mkRefreshToken a.aid now) })) t.sub =
      some { a with refreshToken := RTField.stored (mkRefreshToken a.aid now) } := by
    rw [findAdmin_updateAdmin db a.aid t.sub
        (fun x => { x with refreshToken := RTField.stored (mkRefreshToken a.aid now) })
        (fun _ => rfl), hfa]
    simp [haid]
  have hupdC : findClient (updateClient dbc c.cid
      (fun x => { x with refreshToken := RTField.stored (mkRefreshToken c.cid nowc) })) u.sub =
      some { c with refreshToken := RTField.stored (mkRefreshToken c.cid nowc) } := by
    rw [findClient_updateClient dbc c.cid u.sub
        (fun x => { x with refreshToken := RTField.stored (mkRefreshToken c.cid nowc) })
        (fun _ => rfl), hfc]
    simp [hcid]
  have hneA : RTField.stored t ≠ RTField.stored (mkRefreshToken a.aid now) := by
    intro hcontra
    have ht : t = mkRefreshToken a.aid now := by
      cases hcontra; rfl
    exact hia (congrArg Token.iat ht)
  have hneC : RTField.stored u ≠ RTField.stored (mkRefreshToken c.cid nowc) := by
    intro hcontra
    have hu : u = mkRefreshToken c.cid nowc := by
      cases hcontra; rfl
    exact hic (congrArg Token.iat hu)
  refine ⟨?_, hupdA, ?_, ?_, ?_, hupdC, ?_, ?_⟩
  · simp only [refreshAdminToken, jwtVerify_of_valid hka hea, hfa, hsa, haid]
    simp
  · simp only [refreshAdminToken, jwtVerify_of_valid hka hea2, hupdA]
    simp [hneA]
  · intro db' t1 t2 n1 n2 b h1 h2
    obtain ⟨-, hs1⟩ := verifyAdminRefreshToken_ok_stored h1
    obtain ⟨-, hs2⟩ := verifyAdminRefreshToken_ok_stored h2
    cases hs1.symm.trans hs2
    rfl
  · simp only [refreshClientAccessToken, jwtVerify_of_valid hkc hec, hfc, hsc,
      generateAccessAndRefreshToken, hcid]
    simp
  · simp only [refreshClientAccessToken, jwtVerify_of_valid hkc hec2, hupdC]
    simp [hneC]
  · intro db' u' n' r h
    exact refreshClientAccessToken_ok_stored h

/-- Witness for C1: after rotating at a concrete state, replaying the old
refresh token fails the stored-value equality check for both principals. -/
theorem refresh_rotation_single_valid_instance_witness :
    refreshAdminToken (updateAdmin [c1Admin] c1Admin.aid
        (fun x => { x with refreshToken := .stored (mkRefreshToken c1Admin.aid 1) }))
      (some (mkRefreshToken 4 0)) 2 = .error ⟨401, "Refresh token is expired or used"⟩ ∧
    refreshClientAccessToken (updateClient [c1Client] c1Client.cid
        (fun x => { x with refreshToken := .stored (mkRefreshToken c1Client.cid 1) }))
      (some (mkRefreshToken 9 0)) 2 = .error ⟨500, "Invalid refresh token"⟩ := by
  have h := refresh_rotation_single_valid_instance [c1Admin] c1Admin (mkRefreshToken 4 0) 1 2
    [c1Client] c1Client (mkRefreshToken 9 0) 1 2
    rfl rfl rfl (by decide) (by decide) (by decide)
    rfl rfl rfl (by decide) (by decide) (by decide)
  exact ⟨h.2.2.1, h.2.2.2.2.2.2.1⟩

/-! ## Claim C3: blog deletion error precedence -/

/-- C3: for an existing, active requesting client, deleteBlog fails with
404 when the blog id does not exist and with 403 when the blog exists but
its author is a different client; blog existence is checked before
ownership inside verifyBlogOwnership, and the collection is unchanged in
both cases. -/
theorem deleteBlog_notFound_forbidden (clients : List Client) (blogs : List Blog)
    (clientId blogId : Nat) (cloudThrows : Bool) (c : Client)
    (hc : findClient clients clientId = some c) (hact : c.status = "active") :
    (blogs.find? (fun b => b.bid == blogId) = none →
      deleteBlog clients blogs clientId blogId cloudThrows =
        (.error ⟨404, "Blog not found"⟩, blogs)) ∧
    (∀ b, blogs.find? (fun b => b.bid == blogId) = some b → b.author ≠ clientId →
      deleteBlog clients blogs clientId blogId cloudThrows =
        (.error ⟨403, "Unauthorized: You do not own this blog"⟩, blogs)) := by
  constructor
  · intro hnone
    simp only [deleteBlog, verifyBlogOwnership, hc, hact, hnone]
    simp
  · intro b hfound hauthor
    simp only [deleteBlog, verifyBlogOwnership, hc, hact, hfound]
    simp [hauthor]

/-- Witness for C3: a concrete client deleting a nonexistent blog gets
404, and deleting another client's blog gets 403. -/
theorem deleteBlog_notFound_forbidden_witness :
    deleteBlog [c3Client] [] 11 30 false = (.error ⟨404, "Blog not found"⟩, []) ∧
    deleteBlog [c3Client] [c3ForeignBlog] 11 30 false =
      (.error ⟨403, "Unauthorized: You do not own this blog"⟩, [c3ForeignBlog]) :=
  ⟨(deleteBlog_notFound_forbidden [c3Client] [] 11 30 false c3Client rfl rfl).1 rfl,
   (deleteBlog_notFound_forbidden [c3Client] [c3ForeignBlog] 11 30 false c3Client rfl rfl).2
     c3ForeignBlog rfl (by decide)⟩

/-! ## Claim C4: transactional atomicity -/

/-- C4: registerClient and createAdmin issue all their writes inside one
transaction session; whenever the operation fails, the session is aborted
before the error propagates and the stored collection is exactly the
initial one — a create-then-fail run leaves no orphan document. -/
theorem registerClient_cases (db : List Client) (inp : RegisterInput) (env : RegisterEnv) :
    (registerClient db inp env).2 = db ∨ isOkE (registerClient db inp env).1 = true := by
  unfold registerClient
  split
  · exact Or.inl rfl
  · split
    · exact Or.inl rfl
    · split
      · exact Or.inl rfl
      · split
        · exact Or.inl rfl
        · split
          · exact Or.inl rfl
          · split
            · exact Or.inl rfl
            · split
              · exact Or.inl rfl
              · exact Or.inr rfl

theorem createAdmin_cases (dba : List Admin) (role : String) (inpA : CreateAdminInput)
    (emailValid : String → Bool) (newId : Nat) :
    ((createAdmin dba role inpA emailValid newId).1).2 = dba ∨
      isOkE ((createAdmin dba role inpA emailValid newId).1).1 = true := by
  unfold createAdmin
  split
  · exact Or.inl rfl
  · split
    · exact Or.inl rfl
    · split
      · exact Or.inl rfl
      · split
        · exact Or.inl rfl
        · split
          · exact Or.inl rfl
          · split
            · exact Or.inl rfl
            · split
              · exact Or.inl rfl
              · exact Or.inr rfl

theorem transaction_atomicity
    (db : List Client) (inp : RegisterInput) (env : RegisterEnv)
    (dba : List Admin) (role : String) (inpA : CreateAdminInput)
    (emailValid : String → Bool) (newId : Nat) :
    (∀ e, (registerClient db inp env).1 = .error e →
      (registerClient db inp env).2 = db) ∧
    (∀ e, ((createAdmin dba role inpA emailValid newId).1).1 = .error e →
      ((createAdmin dba role inpA emailValid newId).1).2 = dba) := by
  constructor
  · intro e h
    rcases registerClient_cases db inp env with h2 | h2
    · exact h2
    · rw [h] at h2
      simp [isOkE] at h2
  · intro e h
    rcases createAdmin_cases dba role inpA emailValid newId with h2 | h2
    · exact h2
    · rw [h] at h2
      simp [isOkE] at h2

/-- Witness for C4: with valid input whose verification email fails after
the create step, registerClient reports the error and the clients
collection is unchanged (no orphan document). -/
theorem transaction_atomicity_witness :
    (registerClient [] c4Input c4EnvEmailFails).1 =
      .error ⟨500, "Failed to register client"⟩ ∧
    (registerClient [] c4Input c4EnvEmailFails).2 = ([] : List Client) :=
  ⟨rfl,
   (transaction_atomicity [] c4Input c4EnvEmailFails [] "x" ⟨"a", "b", "c", "d"⟩
      (fun _ => true) 0).1 ⟨500, "Failed to register client"⟩ rfl⟩

/-! ## Claim C5: session release -/

/-- C5 (code-bug evaluation): createAdmin and
deleteServiceRequestAttachment end their transaction session on every exit
path, but uploadThumbnail never calls session.endSession on any path — its
source has no finally block — including a fully successful upload, so one
session-starting handler violates the claim. -/
theorem uploadThumbnail_never_ends_session :
    (∀ (admins : List Admin) (services : List Service) (adminId serviceId : Nat)
        (filePath uploadResult : Option String) (cloud : CloudDelete),
      (uploadThumbnail admins services adminId serviceId filePath uploadResult cloud).2 = false) ∧
    (∀ (dba : List Admin) (role : String) (inpA : CreateAdminInput)
        (emailValid : String → Bool) (newId : Nat),
      (createAdmin dba role inpA emailValid newId).2 = true) ∧
    (∀ (reqs : List ServiceRequest) (clientId requestId : Nat) (publicId : String)
        (cloud : CloudDelete),
      (deleteServiceRequestAttachment reqs clientId requestId publicId cloud).2 = true) ∧
    (uploadThumbnail [c5Admin] [c5Service] 5 40 (some "/tmp/f.png")
        (some "https://cdn.example.com/x.png") .ok =
      ((.ok "https://cdn.example.com/x.png",
        [{ c5Service with thumbnail := some "https://cdn.example.com/x.png" }]), false)) := by
  refine ⟨?_, ?_, ?_, rfl⟩
  · intro admins services adminId serviceId filePath uploadResult cloud
    unfold uploadThumbnail
    repeat' split
    all_goals first | rfl | simp [apply_ite]
  · intro dba role inpA emailValid newId
    unfold createAdmin
    repeat' split
    all_goals first | rfl | simp [apply_ite]
  · intro reqs clientId requestId publicId cloud
    unfold deleteServiceRequestAttachment
    repeat' split
    all_goals first | rfl | simp [apply_ite]

/-! ## Claim C7: refresh-token lifecycle -/

/-- C7 counterexample: a successful client password change leaves the
stored refresh token exactly as it was, and the refresh token issued
before the change still passes verification afterwards — so a successful
password change does not clear the refresh token for the Client
principal. -/
theorem changeClientPassword_keeps_refreshToken :
    (changeClientPassword [c7Client] 1 "Old123!@" "New123!@").1 = .ok () ∧
    (findClient (changeClientPassword [c7Client] 1 "Old123!@" "New123!@").2 1).map
        Client.refreshToken = some (RTField.stored (mkRefreshToken 1 0)) ∧
    isOkE (refreshClientAccessToken
        (changeClientPassword [c7Client] 1 "Old123!@" "New123!@").2
        (some (mkRefreshToken 1 0)) 5) = true :=
  ⟨rfl, rfl, rfl⟩

/-- C7 (amended): the stored refresh token is set on login and on refresh
for both principals, cleared by logout for both principals and by a
successful Admin password change (after which no token verifies), but a
successful Client password change leaves the stored refresh token
unchanged. -/
theorem refreshToken_lifecycle
    (db : List Admin) (a : Admin) (email password : String)
    (ev : String → Bool) (now : Nat)
    (dbc : List Client) (c : Client) (cemail cpassword : String) (nowc : Nat)
    (hee : email ≠ "") (hpe : password ≠ "") (hev : ev email = true)
    (hfe : db.find? (fun x => x.email == email) = some a)
    (hact : a.isActive = true)
    (hcmp : comparePassword a.password password 12 = true)
    (hcee : cemail ≠ "") (hcpe : cpassword ≠ "")
    (hfce : dbc.find? (fun x => x.email == cemail) = some c)
    (hver : c.isEmailVerified = true)
    (hccmp : comparePassword c.password cpassword 10 = true)
    (hfcid : findClient dbc c.cid = some c) :
    (loginAdmin db email password ev now =
      .ok (updateAdmin db a.aid
            (fun x => { x with refreshToken := .stored (mkRefreshToken a.aid now) }),
           mkAccessToken a.aid now, mkRefreshToken a.aid now)) ∧
    (loginClient dbc cemail cpassword nowc =
      .ok (updateClient dbc c.cid
            (fun x => { x with refreshToken := .stored (mkRefreshToken c.cid nowc) }),
           mkAccessToken c.cid nowc, mkRefreshToken c.cid nowc)) ∧
    (∀ (db' : List Admin) (i : Nat) (a' : Admin), findAdmin db' i = some a' →
      findAdmin (logoutAdmin db' i) i = some { a' with refreshToken := .absent }) ∧
    (∀ (db' : List Admin) (i : Nat) (t : Token) (n : Nat) (b : Admin),
      t.sub = i → verifyAdminRefreshToken (logoutAdmin db' i) (some t) n = .ok b → False) ∧
    (∀ (db' : List Client) (i : Nat) (c' : Client), findClient db' i = some c' →
      findClient (logoutClient db' i) i = some { c' with refreshToken := .absent }) ∧
    (∀ (db' : List Client) (i : Nat) (u : Token) (n : Nat)
        (r : List Client × Token × Token),
      u.sub = i → refreshClientAccessToken (logoutClient db' i) (some u) n = .ok r → False) ∧
    (∀ (db' : List Admin) (i : Nat) (cur new : String),
      ((changePassword db' i cur new).1).1 = .ok () →
      (findAdmin ((changePassword db' i cur new).1).2 i).map Admin.refreshToken =
        some RTField.absent) ∧
    (∀ (db' : List Client) (i : Nat) (old new : String),
      (changeClientPassword db' i old new).1 = .ok () →
      (findClient ((changeClientPassword db' i old new).2) i).map Client.refreshToken =
        (findClient db' i).map Client.refreshToken) := by
  have key_logoutA : ∀ (db' : List Admin) (i : Nat) (a' : Admin),
      findAdmin db' i = some a' →
      findAdmin (logoutAdmin db' i) i = some { a' with refreshToken := RTField.absent } := by
    intro db' i a' hfind
    have haid : a'.aid = i := by
      have h' : db'.find? (fun x => x.aid == i) = some a' := hfind
      simpa using List.find?_some h'
    unfold logoutAdmin
    rw [findAdmin_updateAdmin db' i i
        (fun x => { x with refreshToken := RTField.absent }) (fun _ => rfl), hfind]
    simp [haid]
  have key_logoutC : ∀ (db' : List Client) (i : Nat) (c' : Client),
      findClient db' i = some c' →
      findClient (logoutClient db' i) i = some { c' with refreshToken := RTField.absent } := by
    intro db' i c' hfind
    have hcid : c'.cid = i := by
      have h' : db'.find? (fun x => x.cid == i) = some c' := hfind
      simpa using List.find?_some h'
    unfold logoutClient
    rw [findClient_updateClient db' i i
        (fun x => { x with refreshToken := RTField.absent }) (fun _ => rfl), hfind]
    simp [hcid]
  refine ⟨?_, ?_, key_logoutA, ?_, key_logoutC, ?_, ?_, ?_⟩
  · unfold loginAdmin
    simp [hee, hpe, hev, hfe, hact, hcmp]
  · unfold loginClient
    simp only [generateAccessAndRefreshToken, hfce, hfcid]
    simp [hcee, hcpe, hver, hccmp]
  · intro db' i t n b hsub hok
    obtain ⟨hfind, hstored⟩ := verifyAdminRefreshToken_ok_stored hok
    rw [hsub] at hfind
    cases hall : findAdmin db' i with
    | none =>
      unfold logoutAdmin at hfind
      rw [findAdmin_updateAdmin db' i i
          (fun x => { x with refreshToken := RTField.absent }) (fun _ => rfl), hall] at hfind
      cases hfind
    | some a0 =>
      rw [key_logoutA db' i a0 hall] at hfind
      cases hfind
      cases hstored
  · intro db' i u n r hsub hok
    obtain ⟨c', hfind, hstored⟩ := refreshClientAccessToken_ok_stored hok
    rw [hsub] at hfind
    cases hall : findClient db' i with
    | none =>
      unfold logoutClient at hfind
      rw [findClient_updateClient db' i i
          (fun x => { x with refreshToken := RTField.absent }) (fun _ => rfl), hall] at hfind
      cases hfind
    | some c0 =>
      rw [key_logoutC db' i c0 hall] at hfind
      cases hfind
      cases hstored
  · intro db' i cur new h
    unfold changePassword at h ⊢
    by_cases c1 : (cur == "" || new == "") = true
    · rw [if_pos c1] at h
      exact absurd h (by simp)
    · rw [if_neg c1] at h ⊢
      by_cases c2 : isPasswordStrong new = false
      · rw [if_pos c2] at h
        exact absurd h (by simp)
      · rw [if_neg c2] at h ⊢
        cases hfind : findAdmin db' i with
        | none =>
          simp only [hfind] at h
          exact absurd h (by simp)
        | some a0 =>
          simp only [hfind] at h ⊢
          by_cases c3 : comparePassword a0.password cur 12 = false
          · rw [if_pos c3] at h
            exact absurd h (by simp)
          · rw [if_neg c3] at h ⊢
            by_cases c4 : (cur == new) = true
            · rw [if_pos c4] at h
              exact absurd h (by simp)
            · rw [if_neg c4] at h ⊢
              by_cases c5 : new.length < 8
              · rw [if_pos c5] at h
                exact absurd h (by simp)
              · rw [if_neg c5] at h ⊢
                have haid : a0.aid = i := by
                  have h' : db'.find? (fun x => x.aid == i) = some a0 := hfind
                  simpa using List.find?_some h'
                simp only []
                rw [findAdmin_updateAdmin db' i i
                    (fun x => { x with password := bcryptHash 12 new,
                                       refreshToken := RTField.absent })
                    (fun _ => rfl), hfind]
                simp [haid]
  · intro db' i old new h
    unfold changeClientPassword at h ⊢
    by_cases c1 : (old == "" || new == "") = true
    · rw [if_pos c1] at h
      exact absurd h (by simp)
    · rw [if_neg c1] at h ⊢
      cases hfind : findClient db' i with
      | none =>
        simp only [hfind] at h
        exact absurd h (by simp)
      | some c0 =>
        simp only [hfind] at h ⊢
        by_cases c3 : comparePassword c0.password old 10 = false
        · rw [if_pos c3] at h
          exact absurd h (by simp)
        · rw [if_neg c3] at h ⊢
          by_cases c2 : isPasswordStrong new = false
          · rw [if_pos c2] at h
            exact absurd h (by simp)
          · rw [if_neg c2] at h ⊢
            have hcid : c0.cid = i := by
              have h' : db'.find? (fun x => x.cid == i) = some c0 := hfind
              simpa using List.find?_some h'
            simp only []
            rw [findClient_updateClient db' i i
                (fun x => { x with password := bcryptHash 10 new })
                (fun _ => rfl), hfind]
            simp [hcid]

/-- Witness for the amended C7: concrete logins store the freshly issued
refresh token for both principals. -/
theorem refreshToken_lifecycle_witness :
    loginAdmin [c7Admin] "a6@example.com" "Adm123!@" (fun _ => true) 1 =
      .ok (updateAdmin [c7Admin] c7Admin.aid
            (fun x => { x with refreshToken := .stored (mkRefreshToken c7Admin.aid 1) }),
           mkAccessToken c7Admin.aid 1, mkRefreshToken c7Admin.aid 1) ∧
    loginClient [c7LoginClient] "c8@example.com" "Cli123!@" 1 =
      .ok (updateClient [c7LoginClient] c7LoginClient.cid
            (fun x => { x with refreshToken := .stored (mkRefreshToken c7LoginClient.cid 1) }),
           mkAccessToken c7LoginClient.cid 1, mkRefreshToken c7LoginClient.cid 1) := by
  have h := refreshToken_lifecycle [c7Admin] c7Admin "a6@example.com" "Adm123!@"
    (fun _ => true) 1 [c7LoginClient] c7LoginClient "c8@example.com" "Cli123!@" 1
    (by decide) (by decide) rfl rfl rfl rfl
    (by decide) (by decide) rfl rfl rfl rfl
  exact ⟨h.1, h.2.1⟩

/-! ## Claim C9: best-effort external deletion -/

/-- C9 counterexample: in deleteServiceRequestAttachment a failed external
delete (non-ok result or thrown error) makes the primary operation fail
with a 500 and aborts the removal, leaving the attachment in place —
contradicting the claim that external-delete failures never fail the
primary operation. -/
theorem deleteAttachment_fails_on_cloud_failure :
    deleteServiceRequestAttachment [c9Request] 7 1 "p1" .badResult =
      ((.error ⟨500, "Failed to delete attachment from storage"⟩, [c9Request]), true) ∧
    deleteServiceRequestAttachment [c9Request] 7 1 "p1" .thrown =
      ((.error ⟨500, "Attachment deletion failed"⟩, [c9Request]), true) :=
  ⟨rfl, rfl⟩

/-- C9 (amended): deletion of the external object is best-effort in the
owning-resource deletion paths — deleteService and deleteBlog swallow a
thrown external delete and still remove the resource — but in direct
attachment removal (deleteServiceRequestAttachment) a failed external
delete aborts the operation with a 500 and the attachment is not
removed. -/
theorem external_delete_best_effort
    (admins : List Admin) (services : List Service) (adminId serviceId : Nat)
    (ra : Admin) (s : Service)
    (hfa : findAdmin admins adminId = some ra)
    (hperm : (if ra.role == "superadmin" then true
              else truthy (jsPermLookup ra.permissions "manageServices")) = true)
    (hfs : services.find? (fun x => x.sid == serviceId) = some s)
    (hown : ¬(s.createdBy ≠ ra.aid ∧ ra.role ≠ "superadmin"))
    (reqs : List ServiceRequest) (clientId requestId : Nat) (publicId : String)
    (sr : ServiceRequest) (att : Attachment)
    (hpid : publicId ≠ "")
    (hfr : reqs.find? (fun r => r.rid == requestId && r.createdBy == clientId) = some sr)
    (hfatt : sr.attachments.find? (fun x => x.publicId == publicId) = some att) :
    (∀ cloud : CloudDelete,
      deleteService admins services adminId serviceId cloud =
        ((.ok (), services.filter (fun x => !(x.sid == serviceId))), true)) ∧
    (∀ (clients : List Client) (blogs : List Blog) (cid bid : Nat),
      deleteBlog clients blogs cid bid true = deleteBlog clients blogs cid bid false) ∧
    (∀ cloud : CloudDelete, cloud ≠ .ok →
      ∃ m, deleteServiceRequestAttachment reqs clientId requestId publicId cloud =
        ((.error ⟨500, m⟩, reqs), true)) := by
  refine ⟨?_, fun _ _ _ _ => rfl, ?_⟩
  · intro cloud
    unfold deleteService
    rw [hfa]
    simp only [hperm, hfs]
    simp [hown]
  · intro cloud hcloud
    unfold deleteServiceRequestAttachment
    simp only [beq_iff_eq, hpid, ite_false, hfr, hfatt, if_neg]
    cases cloud with
    | ok => exact absurd rfl hcloud
    | badResult => exact ⟨"Failed to delete attachment from storage", by simp [hpid]⟩
    | thrown => exact ⟨"Attachment deletion failed", by simp [hpid]⟩

/-- Witness for the amended C9: with a thrown external delete, the
concrete service deletion still succeeds while the concrete attachment
removal fails with a 500 and leaves the state unchanged. -/
theorem external_delete_best_effort_witness :
    deleteService [c9Admin] [c9Service] 7 50 .thrown = ((.ok (), []), true) ∧
    (∃ m, deleteServiceRequestAttachment [c9Request] 7 1 "p1" .thrown =
      ((.error ⟨500, m⟩, [c9Request]), true)) := by
  have h := external_delete_best_effort [c9Admin] [c9Service] 7 50 c9Admin c9Service
    rfl rfl rfl (by decide) [c9Request] 7 1 "p1" c9Request
    { publicId := "p1", resourceType := "image" } (by decide) rfl rfl
  exact ⟨h.1 .thrown, h.2.2 .thrown (by decide)⟩

end Codix
